import Mathlib

/-!
Verification of the arc-flash-studio backend calculation engine.

Shallow embedding conventions:
* Python floats are modelled as exact numbers: input fields as rationals
  (every Python float value is a binary rational), computed quantities as
  real numbers, decimal literals by the numbers they denote.
* `math.log10 x` is `Real.logb 10 x`, `10 ** x` is real `rpow`,
  `math.sqrt` is `Real.sqrt`, `math.pi` is `Real.pi`.
* Python's `round(x, n)` (round to `n` decimal places) is modelled by
  `pyRound x n`, rounding `x * 10^n` to the nearest integer.  Python
  breaks ties towards even; no quantity rounded in this development sits
  on a tie, so the tie-breaking convention is immaterial here.
* Pydantic field validation (`models/equipment.py`) is modelled by
  `validateEquipment`: per-field numeric constraints run first and the
  `validate_voltage_range` after-validator only runs when the field's own
  numeric constraints passed, matching pydantic's execution order.
-/

namespace ArcFlash

/-- IEEE 1584-2018 enclosure types (`models/equipment.py`, `EnclosureType`). -/
inductive EnclosureType where
  | VCB
  | VCBB
  | HCB
  | VOA
  | HOA
deriving DecidableEq

/-- System grounding configuration (`models/equipment.py`, `GroundingType`). -/
inductive GroundingType where
  | solidly_grounded
  | ungrounded
  | impedance_grounded
deriving DecidableEq

/-- Input data for arc flash calculation (`models/equipment.py`, `EquipmentInput`). -/
structure EquipmentInput where
  name : String
  voltage : ℚ
  bolted_fault_current : ℚ
  working_distance : ℚ
  enclosure_type : EnclosureType
  electrode_gap : ℚ
  fault_clearing_time : ℚ
  grounding : GroundingType
deriving DecidableEq

/-- Arc flash calculation results (`models/equipment.py`, `CalculationResult`). -/
structure CalculationResult where
  equipment_name : String
  incident_energy : ℝ
  arc_flash_boundary : ℝ
  ppe_category : ℤ
  arcing_current : ℝ
  arc_duration : ℝ
  correction_factor : ℝ
  warnings : List String

/-- The field constraints declared on `EquipmentInput` (`models/equipment.py`):
name 1–100 chars, `0 < voltage ≤ 15000` with the extra domain rule
`voltage ≥ 208`, `0 < bolted_fault_current ≤ 106000`,
`0 < working_distance ≤ 120`, `0 < electrode_gap ≤ 200`,
`0 < fault_clearing_time ≤ 2`. -/
def Valid (e : EquipmentInput) : Prop :=
  1 ≤ e.name.length ∧ e.name.length ≤ 100 ∧
  0 < e.voltage ∧ e.voltage ≤ 15000 ∧ 208 ≤ e.voltage ∧
  0 < e.bolted_fault_current ∧ e.bolted_fault_current ≤ 106000 ∧
  0 < e.working_distance ∧ e.working_distance ≤ 120 ∧
  0 < e.electrode_gap ∧ e.electrode_gap ≤ 200 ∧
  0 < e.fault_clearing_time ∧ e.fault_clearing_time ≤ 2

instance decidableValid (e : EquipmentInput) : Decidable (Valid e) := by
  unfold Valid
  infer_instance

/-- Python's `round(x, n)`: `x` rounded to `n` decimal places. -/
noncomputable def pyRound (x : ℝ) (n : ℕ) : ℝ :=
  ((round (x * (10 : ℝ) ^ n) : ℤ) : ℝ) / (10 : ℝ) ^ n

/-- `ArcFlashCalculator.ENCLOSURE_FACTORS` (`services/arc_flash.py`). -/
def ENCLOSURE_FACTORS : EnclosureType → ℚ
  | .VCB => 1.0
  | .VCBB => 0.973
  | .HCB => 1.056
  | .VOA => 1.0
  | .HOA => 1.0

/-- `ArcFlashCalculator._get_ppe_description` (`services/arc_flash.py`). -/
def get_ppe_description (category : ℤ) : String :=
  if category = 0 then "Non-melting or untreated natural fiber shirt and pants"
  else if category = 1 then "FR shirt and pants (4 cal/cm²)"
  else if category = 2 then "FR shirt and pants + FR coverall (8 cal/cm²)"
  else if category = 3 then "FR shirt and pants + FR coverall + FR jacket (25 cal/cm²)"
  else if category = 4 then "FR shirt and pants + multilayer flash suit (40+ cal/cm²)"
  else "Unknown category"

/-- The local `lg_ia` of `ArcFlashCalculator.calculate_arcing_current`
(`services/arc_flash.py` lines 111-129): the base-10 log of the arcing
current, including the `K` constant selected by enclosure type. -/
noncomputable def lg_ia (equipment : EquipmentInput) : ℝ :=
  let voltage_kv : ℝ := (equipment.voltage : ℝ) / 1000
  let ibf : ℝ := (equipment.bolted_fault_current : ℝ)
  let gap : ℝ := (equipment.electrode_gap : ℝ)
  let K : ℝ :=
    if equipment.enclosure_type ∈
        [EnclosureType.VCB, EnclosureType.VCBB, EnclosureType.HCB] then
      -0.153
    else
      -0.097
  K + 0.662 * Real.logb 10 ibf + 0.0966 * voltage_kv + 0.000526 * gap
    + 0.5588 * voltage_kv * Real.logb 10 ibf
    - 0.00304 * gap * Real.logb 10 ibf

/-- `ArcFlashCalculator.calculate_arcing_current` (`services/arc_flash.py`):
`arcing_current = 10 ** lg_ia`. -/
noncomputable def calculate_arcing_current (equipment : EquipmentInput) : ℝ :=
  (10 : ℝ) ^ lg_ia equipment

/-- `ArcFlashCalculator.calculate_incident_energy` (`services/arc_flash.py`):
`E = (4.184 * Cf * Ia ** n * t) / (4 * pi * d ** 2)` with `n = 1.0` in both
branches of the enclosure test. -/
noncomputable def calculate_incident_energy
    (equipment : EquipmentInput) (arcing_current : ℝ) : ℝ :=
  let cf : ℝ := ((ENCLOSURE_FACTORS equipment.enclosure_type : ℚ) : ℝ)
  let t : ℝ := (equipment.fault_clearing_time : ℝ)
  let d : ℝ := (equipment.working_distance : ℝ)
  let n : ℝ :=
    if equipment.enclosure_type ∈ [EnclosureType.VOA, EnclosureType.HOA] then
      1.0
    else
      1.0
  4.184 * cf * (arcing_current ^ n) * t / (4 * Real.pi * d ^ (2 : ℕ))

open Classical in
/-- `ArcFlashCalculator.determine_ppe_category` (`services/arc_flash.py`). -/
noncomputable def determine_ppe_category (incident_energy : ℝ) : ℤ :=
  if incident_energy < 1.2 then 0
  else if incident_energy < 4 then 1
  else if incident_energy < 8 then 2
  else if incident_energy < 25 then 3
  else 4

/-- `ArcFlashCalculator.calculate_arc_flash_boundary` (`services/arc_flash.py`):
`sqrt((4.184 * cf * ia ** n * t) / (4 * pi * 1.2))` with `n = 1.0`. -/
noncomputable def calculate_arc_flash_boundary
    (equipment : EquipmentInput) (arcing_current : ℝ) : ℝ :=
  let cf : ℝ := ((ENCLOSURE_FACTORS equipment.enclosure_type : ℚ) : ℝ)
  let t : ℝ := (equipment.fault_clearing_time : ℝ)
  let e_threshold : ℝ := 1.2
  let n : ℝ := 1.0
  let numerator := 4.184 * cf * (arcing_current ^ n) * t
  let denominator := 4 * Real.pi * e_threshold
  Real.sqrt (numerator / denominator)

open Classical in
/-- `ArcFlashCalculator.calculate` (`services/arc_flash.py`): the five steps,
the two warnings (in source order) and the result-boundary rounding. -/
noncomputable def calculate (equipment : EquipmentInput) : CalculationResult :=
  let arcing_current := calculate_arcing_current equipment
  let incident_energy := calculate_incident_energy equipment arcing_current
  let ppe_category := determine_ppe_category incident_energy
  let boundary := calculate_arc_flash_boundary equipment arcing_current
  let correction_factor : ℝ :=
    ((ENCLOSURE_FACTORS equipment.enclosure_type : ℚ) : ℝ)
  let warnings : List String :=
    (if (0.5 : ℚ) < equipment.fault_clearing_time then
      ["Clearing time > 0.5s may indicate inadequate protection"]
    else []) ++
    (if (40 : ℝ) < incident_energy then
      ["Incident energy > 40 cal/cm² - consider additional protection"]
    else [])
  { equipment_name := equipment.name
    incident_energy := pyRound incident_energy 2
    arc_flash_boundary := pyRound boundary 1
    ppe_category := ppe_category
    arcing_current := pyRound arcing_current 0
    arc_duration := (equipment.fault_clearing_time : ℝ)
    correction_factor := correction_factor
    warnings := warnings }

/-- Numeric intermediate values of `calculation_steps.step_2_arcing_current
.intermediate` (`main.py`). -/
structure Step2Intermediate where
  lg_Ibf : ℝ
  term_1 : ℝ
  term_2 : ℝ
  term_3 : ℝ
  term_4 : ℝ
  term_5 : ℝ
  term_6 : ℝ

/-- `calculation_steps.step_2_arcing_current.result` (`main.py`). -/
structure Step2Result where
  lg_Ia : ℝ
  Ia : ℝ

/-- `calculation_steps.step_2_arcing_current` (`main.py`). -/
structure Step2 where
  K : ℝ
  Ibf : ℝ
  V_kV : ℝ
  G_mm : ℝ
  intermediate : Step2Intermediate
  result : Step2Result

/-- `calculation_steps.step_3_incident_energy` (`main.py`). -/
structure Step3 where
  Cf : ℝ
  Ia : ℝ
  t : ℝ
  D : ℝ
  n : ℝ
  E : ℝ

/-- `calculation_steps.step_4_ppe_category` (`main.py`). -/
structure Step4 where
  incident_energy : ℝ
  category : ℤ
  description : String

/-- `calculation_steps.step_5_arc_flash_boundary` (`main.py`). -/
structure Step5 where
  AFB : ℝ
  comparison_to_working_distance : String

/-- The numeric and string content of `calculation_steps` (`main.py`);
the static text fields (descriptions, equations, citations) are constant
strings and are omitted. -/
structure CalculationSteps where
  step_2_arcing_current : Step2
  step_3_incident_energy : Step3
  step_4_ppe_category : Step4
  step_5_arc_flash_boundary : Step5

/-- `DetailedCalculation` response model (`main.py`). -/
structure DetailedCalculation where
  result : CalculationResult
  calculation_steps : CalculationSteps

open Classical in
/-- `calculate_arc_flash_detailed` (`main.py` lines 174-288): the primary
result together with the recomputed intermediate values, transcribed
expression by expression.  In particular `step_2_arcing_current.result.lg_Ia`
is `round(log10(result.arcing_current), 4)` where `result.arcing_current`
is already rounded to a whole number, and
`step_5.comparison_to_working_distance` compares the rounded
`result.arc_flash_boundary` with the working distance. -/
noncomputable def calculate_arc_flash_detailed
    (equipment : EquipmentInput) : DetailedCalculation :=
  let result := calculate equipment
  let voltage_kv : ℝ := (equipment.voltage : ℝ) / 1000
  let lg_ibf : ℝ := Real.logb 10 (equipment.bolted_fault_current : ℝ)
  let K : ℝ :=
    if equipment.enclosure_type ∈
        [EnclosureType.VCB, EnclosureType.VCBB, EnclosureType.HCB] then
      -0.153
    else
      -0.097
  { result := result
    calculation_steps :=
    { step_2_arcing_current :=
      { K := K
        Ibf := (equipment.bolted_fault_current : ℝ)
        V_kV := voltage_kv
        G_mm := (equipment.electrode_gap : ℝ)
        intermediate :=
        { lg_Ibf := pyRound lg_ibf 4
          term_1 := pyRound K 4
          term_2 := pyRound (0.662 * lg_ibf) 4
          term_3 := pyRound (0.0966 * voltage_kv) 4
          term_4 := pyRound (0.000526 * (equipment.electrode_gap : ℝ)) 4
          term_5 := pyRound (0.5588 * voltage_kv * lg_ibf) 4
          term_6 := pyRound (-0.00304 * (equipment.electrode_gap : ℝ) * lg_ibf) 4 }
        result :=
        { lg_Ia := pyRound (Real.logb 10 result.arcing_current) 4
          Ia := result.arcing_current } }
      step_3_incident_energy :=
      { Cf := ((ENCLOSURE_FACTORS equipment.enclosure_type : ℚ) : ℝ)
        Ia := result.arcing_current
        t := (equipment.fault_clearing_time : ℝ)
        D := (equipment.working_distance : ℝ)
        n := 1.0
        E := result.incident_energy }
      step_4_ppe_category :=
      { incident_energy := result.incident_energy
        category := result.ppe_category
        description := get_ppe_description result.ppe_category }
      step_5_arc_flash_boundary :=
      { AFB := result.arc_flash_boundary
        comparison_to_working_distance :=
          if result.arc_flash_boundary < (equipment.working_distance : ℝ) then
            "Within safe zone"
          else
            "Exceeds working distance - hazard present" } } }

/-- Per-field validation errors for `EquipmentInput` construction
(`models/equipment.py`): one constructor per declared constraint, plus the
distinct `voltageBelowMinimum` raised by the `validate_voltage_range`
after-validator. -/
inductive FieldError where
  | nameTooShort
  | nameTooLong
  | voltageNotPositive
  | voltageTooHigh
  | voltageBelowMinimum
  | ibfNotPositive
  | ibfTooHigh
  | distanceNotPositive
  | distanceTooHigh
  | gapNotPositive
  | gapTooHigh
  | timeNotPositive
  | timeTooHigh
deriving DecidableEq

/-- Errors for the `name` field (`min_length=1`, `max_length=100`). -/
def nameErrors (s : String) : List FieldError :=
  if s.length < 1 then [.nameTooShort]
  else if 100 < s.length then [.nameTooLong]
  else []

/-- Errors for `voltage` (`gt=0`, `le=15000`), then the
`validate_voltage_range` after-validator (`v < 208` raises), which pydantic
only runs once the field's own numeric constraints passed. -/
def voltageErrors (v : ℚ) : List FieldError :=
  if ¬ 0 < v then [.voltageNotPositive]
  else if ¬ v ≤ 15000 then [.voltageTooHigh]
  else if v < 208 then [.voltageBelowMinimum]
  else []

/-- Errors for `bolted_fault_current` (`gt=0`, `le=106000`). -/
def ibfErrors (i : ℚ) : List FieldError :=
  if ¬ 0 < i then [.ibfNotPositive]
  else if ¬ i ≤ 106000 then [.ibfTooHigh]
  else []

/-- Errors for `working_distance` (`gt=0`, `le=120`). -/
def distanceErrors (d : ℚ) : List FieldError :=
  if ¬ 0 < d then [.distanceNotPositive]
  else if ¬ d ≤ 120 then [.distanceTooHigh]
  else []

/-- Errors for `electrode_gap` (`gt=0`, `le=200`). -/
def gapErrors (g : ℚ) : List FieldError :=
  if ¬ 0 < g then [.gapNotPositive]
  else if ¬ g ≤ 200 then [.gapTooHigh]
  else []

/-- Errors for `fault_clearing_time` (`gt=0`, `le=2.0`). -/
def timeErrors (t : ℚ) : List FieldError :=
  if ¬ 0 < t then [.timeNotPositive]
  else if ¬ t ≤ 2 then [.timeTooHigh]
  else []

/-- Pydantic construction of `EquipmentInput`: every field is checked, the
errors are collected in field declaration order, and construction succeeds
exactly when there is none. -/
def validateEquipment (e : EquipmentInput) : Except (List FieldError) EquipmentInput :=
  let errs :=
    nameErrors e.name ++ voltageErrors e.voltage ++ ibfErrors e.bolted_fault_current
      ++ distanceErrors e.working_distance ++ gapErrors e.electrode_gap
      ++ timeErrors e.fault_clearing_time
  if errs = [] then .ok e else .error errs

/-- The K-constant selection rule as worded in the spec (§4.1 step 1), kept
separate from `lg_ia` so the code's branch can be compared against it. -/
def specK : EnclosureType → ℝ
  | .VCB => -0.153
  | .VCBB => -0.153
  | .HCB => -0.153
  | .VOA => -0.097
  | .HOA => -0.097

/-- The spec's worked example input (§8): 480 V, 40 kA, 24 in, VCB, 32 mm,
0.05 s. -/
def sampleInput : EquipmentInput :=
  ⟨"Test Switchboard", 480, 40000, 24, .VCB, 32, 0.05, .solidly_grounded⟩

/-- `sampleInput` with the enclosure changed to open air (VOA). -/
def sampleInputVOA : EquipmentInput :=
  { sampleInput with enclosure_type := .VOA }

/-- `sampleInput` with the grounding changed to ungrounded. -/
def sampleInputUngrounded : EquipmentInput :=
  { sampleInput with grounding := .ungrounded }

/-- `sampleInput` with a longer clearing time. -/
def sampleInputSlow : EquipmentInput :=
  { sampleInput with fault_clearing_time := 0.5 }

/-- A valid input at the top of the accepted voltage and fault-current
ranges: 15 kV and 100 kA. -/
def highVoltageInput : EquipmentInput :=
  ⟨"HV", 15000, 100000, 24, .VCB, 1, 0.1, .solidly_grounded⟩

/-- A valid input with a tiny fault current (1 A) and clearing time 0.001 s. -/
def tinyInputA : EquipmentInput :=
  ⟨"X", 208, 1, 120, .VCB, 1, 0.001, .solidly_grounded⟩

/-- `tinyInputA` with the clearing time doubled to 0.002 s. -/
def tinyInputB : EquipmentInput :=
  { tinyInputA with fault_clearing_time := 0.002 }

/-- A valid input whose arcing current lands strictly between 1 A and 1.5 A,
so the result's rounded `arcing_current` is exactly 1. -/
def traceInput : EquipmentInput :=
  ⟨"X", 208, 10, 24, .VCB, 200, 0.1, .solidly_grounded⟩

/-- A candidate input with `voltage = 0` and every other field in range. -/
def zeroVoltInput : EquipmentInput :=
  ⟨"X", 0, 40000, 24, .VCB, 32, 0.05, .solidly_grounded⟩

/-- A candidate input with `voltage = 100` and every other field in range. -/
def lowVoltInput : EquipmentInput :=
  ⟨"X", 100, 40000, 24, .VCB, 32, 0.05, .solidly_grounded⟩

end ArcFlash

namespace ArcFlash

lemma cf_cast_pos (et : EnclosureType) : (0 : ℝ) < ((ENCLOSURE_FACTORS et : ℚ) : ℝ) := by
  cases et <;> norm_num [ENCLOSURE_FACTORS]

lemma arcing_pos (e : EquipmentInput) : 0 < calculate_arcing_current e :=
  Real.rpow_pos_of_pos (by norm_num) _

lemma incident_energy_eq (e : EquipmentInput) (ia : ℝ) :
    calculate_incident_energy e ia
      = 4.184 * ((ENCLOSURE_FACTORS e.enclosure_type : ℚ) : ℝ) * ia
          * (e.fault_clearing_time : ℝ)
          / (4 * Real.pi * (e.working_distance : ℝ) ^ (2 : ℕ)) := by
  unfold calculate_incident_energy
  rw [ite_self]
  norm_num [Real.rpow_one]

lemma boundary_eq (e : EquipmentInput) (ia : ℝ) :
    calculate_arc_flash_boundary e ia
      = Real.sqrt (4.184 * ((ENCLOSURE_FACTORS e.enclosure_type : ℚ) : ℝ) * ia
          * (e.fault_clearing_time : ℝ) / (4 * Real.pi * 1.2)) := by
  unfold calculate_arc_flash_boundary
  norm_num [Real.rpow_one]

lemma energy_pos (e : EquipmentInput) (h : Valid e) :
    0 < calculate_incident_energy e (calculate_arcing_current e) := by
  obtain ⟨-, -, -, -, -, -, -, hw0, -, -, -, ht0, -⟩ := h
  rw [incident_energy_eq]
  apply div_pos
  · have hA := arcing_pos e
    have ht0' : (0 : ℝ) < (e.fault_clearing_time : ℝ) := by exact_mod_cast ht0
    have hcf := cf_cast_pos e.enclosure_type
    positivity
  · have hw0' : (0 : ℝ) < (e.working_distance : ℝ) := by exact_mod_cast hw0
    have := Real.pi_pos
    positivity

lemma boundary_pos (e : EquipmentInput) (h : Valid e) :
    0 < calculate_arc_flash_boundary e (calculate_arcing_current e) := by
  obtain ⟨-, -, -, -, -, -, -, -, -, -, -, ht0, -⟩ := h
  rw [boundary_eq]
  apply Real.sqrt_pos.mpr
  apply div_pos
  · have hA := arcing_pos e
    have ht0' : (0 : ℝ) < (e.fault_clearing_time : ℝ) := by exact_mod_cast ht0
    have hcf := cf_cast_pos e.enclosure_type
    positivity
  · have := Real.pi_pos
    positivity

lemma round_eq_of_bounds {x : ℝ} {m : ℤ} (h1 : (m : ℝ) ≤ x + 1 / 2)
    (h2 : x + 1 / 2 < (m : ℝ) + 1) : round x = m := by
  rw [round_eq]
  exact Int.floor_eq_iff.mpr ⟨h1, by linarith⟩

lemma pyRound_eq_of_bounds {x : ℝ} {n : ℕ} {m : ℤ}
    (h1 : (m : ℝ) ≤ x * 10 ^ n + 1 / 2) (h2 : x * 10 ^ n + 1 / 2 < (m : ℝ) + 1) :
    pyRound x n = (m : ℝ) / 10 ^ n := by
  unfold pyRound
  rw [round_eq_of_bounds h1 h2]

lemma pyRound_eq_zero {x : ℝ} {n : ℕ} (h0 : 0 ≤ x) (h : x * 10 ^ n < 1 / 2) :
    pyRound x n = 0 := by
  have hp : (0 : ℝ) ≤ x * 10 ^ n := by positivity
  have := pyRound_eq_of_bounds (x := x) (n := n) (m := 0)
    (by norm_num; linarith) (by norm_num; linarith)
  simpa using this

lemma valid_sampleInput : Valid sampleInput := by
  unfold Valid sampleInput
  refine ⟨?_, ?_, ?_, ?_, ?_, ?_, ?_, ?_, ?_, ?_, ?_, ?_, ?_⟩ <;> first | decide | norm_num

lemma valid_sampleInputVOA : Valid sampleInputVOA := by
  unfold Valid sampleInputVOA sampleInput
  refine ⟨?_, ?_, ?_, ?_, ?_, ?_, ?_, ?_, ?_, ?_, ?_, ?_, ?_⟩ <;> first | decide | norm_num

lemma valid_sampleInputUngrounded : Valid sampleInputUngrounded := by
  unfold Valid sampleInputUngrounded sampleInput
  refine ⟨?_, ?_, ?_, ?_, ?_, ?_, ?_, ?_, ?_, ?_, ?_, ?_, ?_⟩ <;> first | decide | norm_num

lemma valid_sampleInputSlow : Valid sampleInputSlow := by
  unfold Valid sampleInputSlow sampleInput
  refine ⟨?_, ?_, ?_, ?_, ?_, ?_, ?_, ?_, ?_, ?_, ?_, ?_, ?_⟩ <;> first | decide | norm_num

lemma valid_highVoltageInput : Valid highVoltageInput := by
  unfold Valid highVoltageInput
  refine ⟨?_, ?_, ?_, ?_, ?_, ?_, ?_, ?_, ?_, ?_, ?_, ?_, ?_⟩ <;> first | decide | norm_num

lemma valid_tinyInputA : Valid tinyInputA := by
  unfold Valid tinyInputA
  refine ⟨?_, ?_, ?_, ?_, ?_, ?_, ?_, ?_, ?_, ?_, ?_, ?_, ?_⟩ <;> first | decide | norm_num

lemma valid_tinyInputB : Valid tinyInputB := by
  unfold Valid tinyInputB tinyInputA
  refine ⟨?_, ?_, ?_, ?_, ?_, ?_, ?_, ?_, ?_, ?_, ?_, ?_, ?_⟩ <;> first | decide | norm_num

lemma valid_traceInput : Valid traceInput := by
  unfold Valid traceInput
  refine ⟨?_, ?_, ?_, ?_, ?_, ?_, ?_, ?_, ?_, ?_, ?_, ?_, ?_⟩ <;> first | decide | norm_num

/-- C4: the returned `ppe_category` is `determine_ppe_category` applied to the
unrounded incident energy, and `determine_ppe_category` is exactly the
five-band step function with half-open boundaries on the lower side
(in particular `E = 1.2` gives category 1 and `E = 4` gives category 2),
covering every real with no overlap and no gap. -/
theorem ppe_category_step_function (e : EquipmentInput) (E : ℝ) :
    (calculate e).ppe_category
      = determine_ppe_category (calculate_incident_energy e (calculate_arcing_current e)) ∧
    (determine_ppe_category E = 0 ↔ E < 1.2) ∧
    (determine_ppe_category E = 1 ↔ 1.2 ≤ E ∧ E < 4) ∧
    (determine_ppe_category E = 2 ↔ 4 ≤ E ∧ E < 8) ∧
    (determine_ppe_category E = 3 ↔ 8 ≤ E ∧ E < 25) ∧
    (determine_ppe_category E = 4 ↔ 25 ≤ E) ∧
    determine_ppe_category (1.2 : ℝ) = 1 ∧
    determine_ppe_category (4 : ℝ) = 2 := by
  refine ⟨rfl, ?_, ?_, ?_, ?_, ?_, ?_, ?_⟩ <;>
      unfold determine_ppe_category <;> split_ifs <;>
      simp only [not_lt] at * <;> norm_num <;>
      first
        | linarith
        | (constructor <;> linarith)
        | (intro h1; linarith)

/-- C5: the arcing current is `10 ^ lg(Ia)` with the spec's six-term formula
and the hard K-selection rule (−0.153 for VCB/VCBB/HCB, −0.097 for VOA/HOA),
and the result record's `arcing_current` is that value rounded to a whole
number. -/
theorem arcing_current_formula (e : EquipmentInput) :
    calculate_arcing_current e
      = (10 : ℝ) ^ (specK e.enclosure_type
          + 0.662 * Real.logb 10 (e.bolted_fault_current : ℝ)
          + 0.0966 * ((e.voltage : ℝ) / 1000)
          + 0.000526 * (e.electrode_gap : ℝ)
          + 0.5588 * ((e.voltage : ℝ) / 1000) * Real.logb 10 (e.bolted_fault_current : ℝ)
          - 0.00304 * (e.electrode_gap : ℝ) * Real.logb 10 (e.bolted_fault_current : ℝ)) ∧
    specK EnclosureType.VCB = -0.153 ∧ specK EnclosureType.VCBB = -0.153 ∧
    specK EnclosureType.HCB = -0.153 ∧ specK EnclosureType.VOA = -0.097 ∧
    specK EnclosureType.HOA = -0.097 ∧
    (calculate e).arcing_current = pyRound (calculate_arcing_current e) 0 := by
  refine ⟨?_, rfl, rfl, rfl, rfl, rfl, rfl⟩
  unfold calculate_arcing_current lg_ia specK
  obtain ⟨n, v, b, w, et, g, t, gr⟩ := e
  cases et <;> rfl

/-- C6: the unrounded incident energy is
`4.184 · Cf · Ia^1.0 · t / (4π · D²)` with the fixed correction-factor table
(VCB = 1.0, VCBB = 0.973, HCB = 1.056, VOA = 1.0, HOA = 1.0) and exponent
`n = 1.0` for every enclosure type, and the result record's
`incident_energy` is that value rounded to 2 decimal places. -/
theorem incident_energy_formula (e : EquipmentInput) (ia : ℝ) :
    calculate_incident_energy e ia
      = 4.184 * ((ENCLOSURE_FACTORS e.enclosure_type : ℚ) : ℝ) * ia ^ (1 : ℝ)
          * (e.fault_clearing_time : ℝ)
          / (4 * Real.pi * (e.working_distance : ℝ) ^ (2 : ℕ)) ∧
    ENCLOSURE_FACTORS EnclosureType.VCB = 1 ∧
    ENCLOSURE_FACTORS EnclosureType.VCBB = 0.973 ∧
    ENCLOSURE_FACTORS EnclosureType.HCB = 1.056 ∧
    ENCLOSURE_FACTORS EnclosureType.VOA = 1 ∧
    ENCLOSURE_FACTORS EnclosureType.HOA = 1 ∧
    (calculate e).incident_energy
      = pyRound (calculate_incident_energy e (calculate_arcing_current e)) 2 := by
  refine ⟨?_, by norm_num [ENCLOSURE_FACTORS], by norm_num [ENCLOSURE_FACTORS],
    by norm_num [ENCLOSURE_FACTORS], by norm_num [ENCLOSURE_FACTORS],
    by norm_num [ENCLOSURE_FACTORS], rfl⟩
  rw [incident_energy_eq, Real.rpow_one]

/-- C7: the unrounded arc flash boundary is the incident-energy equation
solved for distance at the 1.2 cal/cm² threshold, it is strictly positive
(as is the unrounded incident energy), and the result record's
`arc_flash_boundary` is that value rounded to 1 decimal place. -/
theorem boundary_formula_pos (e : EquipmentInput) (h : Valid e) :
    calculate_arc_flash_boundary e (calculate_arcing_current e)
      = Real.sqrt ((4.184 * ((ENCLOSURE_FACTORS e.enclosure_type : ℚ) : ℝ)
          * (calculate_arcing_current e) ^ (1 : ℝ) * (e.fault_clearing_time : ℝ))
          / (4 * Real.pi * 1.2)) ∧
    0 < calculate_arc_flash_boundary e (calculate_arcing_current e) ∧
    0 < calculate_incident_energy e (calculate_arcing_current e) ∧
    (calculate e).arc_flash_boundary
      = pyRound (calculate_arc_flash_boundary e (calculate_arcing_current e)) 1 := by
  refine ⟨?_, boundary_pos e h, energy_pos e h, rfl⟩
  rw [boundary_eq, Real.rpow_one]

/-- Witness for C7 at the spec's worked example input. -/
theorem boundary_formula_pos_witness :
    Valid sampleInput ∧
    0 < calculate_arc_flash_boundary sampleInput (calculate_arcing_current sampleInput) :=
  ⟨valid_sampleInput, (boundary_formula_pos sampleInput valid_sampleInput).2.1⟩

/-- C10: the engine never reads `grounding`: two valid inputs identical in
every other field produce identical `CalculationResult`s in every field. -/
theorem grounding_no_influence (e1 e2 : EquipmentInput)
    (h1 : Valid e1) (h2 : Valid e2)
    (hname : e1.name = e2.name) (hv : e1.voltage = e2.voltage)
    (hb : e1.bolted_fault_current = e2.bolted_fault_current)
    (hw : e1.working_distance = e2.working_distance)
    (he : e1.enclosure_type = e2.enclosure_type)
    (hg : e1.electrode_gap = e2.electrode_gap)
    (ht : e1.fault_clearing_time = e2.fault_clearing_time) :
    calculate e1 = calculate e2 := by
  obtain ⟨n1, v1, b1, w1, et1, g1, t1, gr1⟩ := e1
  obtain ⟨n2, v2, b2, w2, et2, g2, t2, gr2⟩ := e2
  obtain rfl : n1 = n2 := hname
  obtain rfl : v1 = v2 := hv
  obtain rfl : b1 = b2 := hb
  obtain rfl : w1 = w2 := hw
  obtain rfl : et1 = et2 := he
  obtain rfl : g1 = g2 := hg
  obtain rfl : t1 = t2 := ht
  rfl

/-- Witness for C10: the worked example with its grounding flipped. -/
theorem grounding_no_influence_witness :
    calculate sampleInput = calculate sampleInputUngrounded :=
  grounding_no_influence sampleInput sampleInputUngrounded
    valid_sampleInput valid_sampleInputUngrounded rfl rfl rfl rfl rfl rfl rfl

lemma logb_ten_1e5 : Real.logb 10 (100000 : ℝ) = 5 := by
  have h : (100000 : ℝ) = (10 : ℝ) ^ (5 : ℝ) := by
    rw [show (5 : ℝ) = ((5 : ℕ) : ℝ) by norm_num, Real.rpow_natCast]
    norm_num
  rw [h, Real.logb_rpow (by norm_num) (by norm_num)]

lemma lg_ia_highVoltage : lg_ia highVoltageInput = 46.501326 := by
  unfold lg_ia highVoltageInput
  rw [if_pos (by decide)]
  norm_num [logb_ten_1e5]

/-- C1 counterexample: at 15 kV and a bolted fault current of 100 kA (both
inside the accepted ranges) the computed arcing current exceeds the bolted
fault current, so `arcing_current < bolted_fault_current` fails. -/
theorem arcing_current_exceeds_bolted :
    Valid highVoltageInput ∧
    ((highVoltageInput.bolted_fault_current : ℚ) : ℝ)
      < calculate_arcing_current highVoltageInput ∧
    ¬ calculate_arcing_current highVoltageInput
        < ((highVoltageInput.bolted_fault_current : ℚ) : ℝ) := by
  have h100 : ((highVoltageInput.bolted_fault_current : ℚ) : ℝ) = (10 : ℝ) ^ (5 : ℝ) := by
    rw [show (5 : ℝ) = ((5 : ℕ) : ℝ) by norm_num, Real.rpow_natCast]
    norm_num [highVoltageInput]
  have hA : calculate_arcing_current highVoltageInput = (10 : ℝ) ^ (46.501326 : ℝ) := by
    unfold calculate_arcing_current
    rw [lg_ia_highVoltage]
  have hlt : ((highVoltageInput.bolted_fault_current : ℚ) : ℝ)
      < calculate_arcing_current highVoltageInput := by
    rw [h100, hA, Real.rpow_lt_rpow_left_iff (by norm_num : (1 : ℝ) < 10)]
    norm_num
  exact ⟨valid_highVoltageInput, hlt, not_lt.mpr (le_of_lt hlt)⟩

/-- C1 amended: for every valid input the arcing current is nonnegative; the
claim's strict upper bound by the bolted fault current does not hold in
general (see the counterexample at 15 kV / 100 kA). -/
theorem arcing_current_nonneg (e : EquipmentInput) (h : Valid e) :
    0 ≤ calculate_arcing_current e :=
  le_of_lt (arcing_pos e)

/-- Witness for the amended C1 at the spec's worked example input. -/
theorem arcing_current_nonneg_witness :
    Valid sampleInput ∧ 0 ≤ calculate_arcing_current sampleInput :=
  ⟨valid_sampleInput, arcing_current_nonneg sampleInput valid_sampleInput⟩

lemma lg_ia_shift (e1 e2 : EquipmentInput) (hv : e1.voltage = e2.voltage)
    (hb : e1.bolted_fault_current = e2.bolted_fault_current)
    (hg : e1.electrode_gap = e2.electrode_gap)
    (he1 : e1.enclosure_type = .VCB) (he2 : e2.enclosure_type = .VOA) :
    lg_ia e2 = lg_ia e1 + 0.056 := by
  unfold lg_ia
  rw [hv, hb, hg, he1, he2, if_neg (by decide), if_pos (by decide)]
  ring

/-- C3 counterexample: the worked example as VCB versus VOA — every other
field equal — yields the SAME `correction_factor` (the table maps both VCB
and VOA to 1.0), refuting "the two CalculationResults differ in
correction_factor". -/
theorem enclosure_correction_factor_counterexample :
    Valid sampleInput ∧ Valid sampleInputVOA ∧
    sampleInput.enclosure_type = EnclosureType.VCB ∧
    sampleInputVOA.enclosure_type = EnclosureType.VOA ∧
    sampleInput.name = sampleInputVOA.name ∧
    sampleInput.voltage = sampleInputVOA.voltage ∧
    sampleInput.bolted_fault_current = sampleInputVOA.bolted_fault_current ∧
    sampleInput.working_distance = sampleInputVOA.working_distance ∧
    sampleInput.electrode_gap = sampleInputVOA.electrode_gap ∧
    sampleInput.fault_clearing_time = sampleInputVOA.fault_clearing_time ∧
    sampleInput.grounding = sampleInputVOA.grounding ∧
    (calculate sampleInput).correction_factor
      = (calculate sampleInputVOA).correction_factor :=
  ⟨valid_sampleInput, valid_sampleInputVOA, rfl, rfl, rfl, rfl, rfl, rfl, rfl,
    rfl, rfl, rfl⟩

/-- C3 amended: for two valid inputs identical except for the enclosure
(VCB versus VOA), the correction factors are equal (the table gives 1.0 for
both) while the unrounded incident energies do differ — the VOA energy is
strictly larger, because the K constant differs by 0.056. -/
theorem enclosure_change_effect (e1 e2 : EquipmentInput)
    (h1 : Valid e1) (h2 : Valid e2)
    (hname : e1.name = e2.name) (hv : e1.voltage = e2.voltage)
    (hb : e1.bolted_fault_current = e2.bolted_fault_current)
    (hw : e1.working_distance = e2.working_distance)
    (hg : e1.electrode_gap = e2.electrode_gap)
    (ht : e1.fault_clearing_time = e2.fault_clearing_time)
    (hgr : e1.grounding = e2.grounding)
    (he1 : e1.enclosure_type = .VCB) (he2 : e2.enclosure_type = .VOA) :
    (calculate e1).correction_factor = (calculate e2).correction_factor ∧
    calculate_incident_energy e1 (calculate_arcing_current e1)
      < calculate_incident_energy e2 (calculate_arcing_current e2) := by
  obtain ⟨-, -, -, -, -, -, -, hw0, -, -, -, ht0, -⟩ := h1
  constructor
  · show ((ENCLOSURE_FACTORS e1.enclosure_type : ℚ) : ℝ)
      = ((ENCLOSURE_FACTORS e2.enclosure_type : ℚ) : ℝ)
    rw [he1, he2]
    norm_num [ENCLOSURE_FACTORS]
  · have hA2 : calculate_arcing_current e2
        = calculate_arcing_current e1 * (10 : ℝ) ^ (0.056 : ℝ) := by
      unfold calculate_arcing_current
      rw [lg_ia_shift e1 e2 hv hb hg he1 he2, Real.rpow_add (by norm_num)]
    have hc : (1 : ℝ) < (10 : ℝ) ^ (0.056 : ℝ) := by
      calc (1 : ℝ) = (10 : ℝ) ^ (0 : ℝ) := (Real.rpow_zero 10).symm
        _ < (10 : ℝ) ^ (0.056 : ℝ) := by
            rw [Real.rpow_lt_rpow_left_iff (by norm_num : (1 : ℝ) < 10)]
            norm_num
    have key : calculate_arcing_current e1
        < calculate_arcing_current e1 * (10 : ℝ) ^ (0.056 : ℝ) :=
      lt_mul_of_one_lt_right (arcing_pos e1) hc
    have ht0' : (0 : ℝ) < (e1.fault_clearing_time : ℝ) := by exact_mod_cast ht0
    have hw0' : (0 : ℝ) < (e1.working_distance : ℝ) := by exact_mod_cast hw0
    have hden : (0 : ℝ) < 4 * Real.pi * (e1.working_distance : ℝ) ^ (2 : ℕ) := by
      have := Real.pi_pos
      positivity
    have hcf1 : ((ENCLOSURE_FACTORS EnclosureType.VCB : ℚ) : ℝ) = 1 := by
      norm_num [ENCLOSURE_FACTORS]
    have hcf2 : ((ENCLOSURE_FACTORS EnclosureType.VOA : ℚ) : ℝ) = 1 := by
      norm_num [ENCLOSURE_FACTORS]
    rw [incident_energy_eq, incident_energy_eq, he1, he2, ← hw, ← ht, hA2,
      hcf1, hcf2, div_lt_div_iff_of_pos_right hden]
    exact mul_lt_mul_of_pos_right
      (mul_lt_mul_of_pos_left key (by norm_num)) ht0'

/-- Witness for the amended C3 at the worked example pair. -/
theorem enclosure_change_effect_witness :
    (calculate sampleInput).correction_factor
      = (calculate sampleInputVOA).correction_factor ∧
    calculate_incident_energy sampleInput (calculate_arcing_current sampleInput)
      < calculate_incident_energy sampleInputVOA (calculate_arcing_current sampleInputVOA) :=
  enclosure_change_effect sampleInput sampleInputVOA
    valid_sampleInput valid_sampleInputVOA rfl rfl rfl rfl rfl rfl rfl rfl rfl

lemma voltageErrors_of_lt {v : ℚ} (hv : v < 208) :
    voltageErrors v ≠ [] ∧
    (0 < v → FieldError.voltageBelowMinimum ∈ voltageErrors v) := by
  unfold voltageErrors
  by_cases h0 : 0 < v
  · rw [if_neg (not_not_intro h0),
      if_neg (not_not_intro (by linarith : v ≤ 15000)), if_pos hv]
    exact ⟨by simp, fun _ => by simp⟩
  · rw [if_pos h0]
    exact ⟨by simp, fun h' => absurd h' h0⟩

lemma voltageErrors_nil {v : ℚ} (h : voltageErrors v = []) : 208 ≤ v := by
  unfold voltageErrors at h
  by_cases h0 : 0 < v
  · rw [if_neg (not_not_intro h0)] at h
    by_cases h15 : v ≤ 15000
    · rw [if_neg (not_not_intro h15)] at h
      by_cases h208 : v < 208
      · rw [if_pos h208] at h
        simp at h
      · exact not_lt.mp h208
    · rw [if_pos h15] at h
      simp at h
  · rw [if_pos h0] at h
    simp at h

/-- C8 amended: a candidate with `voltage < 208` always fails construction;
when the voltage additionally passes its own numeric bound checks
(`0 < voltage`), the failure includes the distinct `voltageBelowMinimum`
domain error (for `voltage ≤ 0` the generic positivity bound check fires
first, and pydantic does not run the after-validator).  Conversely a
successful construction always carries `voltage ≥ 208`: the engine never
observes a voltage below 208. -/
theorem voltage_floor_rejection :
    (∀ e : EquipmentInput, e.voltage < 208 →
      ∃ errs, validateEquipment e = .error errs ∧ errs ≠ [] ∧
        (0 < e.voltage → FieldError.voltageBelowMinimum ∈ errs)) ∧
    (∀ e e' : EquipmentInput, validateEquipment e = .ok e' → 208 ≤ e'.voltage) := by
  constructor
  · intro e hv
    obtain ⟨hne, hmem⟩ := voltageErrors_of_lt hv
    have hNE : nameErrors e.name ++ voltageErrors e.voltage
        ++ ibfErrors e.bolted_fault_current ++ distanceErrors e.working_distance
        ++ gapErrors e.electrode_gap ++ timeErrors e.fault_clearing_time ≠ [] := by
      simp only [ne_eq, List.append_eq_nil]
      rintro ⟨⟨⟨⟨⟨-, hvnil⟩, -⟩, -⟩, -⟩, -⟩
      exact hne hvnil
    refine ⟨_, ?_, hNE, ?_⟩
    · simp only [validateEquipment]
      rw [if_neg hNE]
    · intro h0
      simp only [List.mem_append]
      exact Or.inl (Or.inl (Or.inl (Or.inl (Or.inr (hmem h0)))))
  · intro e e' hok
    simp only [validateEquipment] at hok
    by_cases hnil : nameErrors e.name ++ voltageErrors e.voltage
        ++ ibfErrors e.bolted_fault_current ++ distanceErrors e.working_distance
        ++ gapErrors e.electrode_gap ++ timeErrors e.fault_clearing_time = []
    · rw [if_pos hnil] at hok
      simp only [List.append_eq_nil] at hnil
      obtain ⟨⟨⟨⟨⟨-, hvnil⟩, -⟩, -⟩, -⟩, -⟩ := hnil
      obtain rfl : e = e' := by
        simpa using hok
      exact voltageErrors_nil hvnil
    · rw [if_neg hnil] at hok
      exact absurd hok (by simp)

/-- Witness for the amended C8 at a concrete candidate with voltage 100. -/
theorem voltage_floor_rejection_witness :
    ∃ errs, validateEquipment lowVoltInput = .error errs ∧ errs ≠ [] ∧
      (0 < lowVoltInput.voltage → FieldError.voltageBelowMinimum ∈ errs) :=
  voltage_floor_rejection.1 lowVoltInput (by norm_num [lowVoltInput])

/-- C8 counterexample: at `voltage = 0` construction fails, but with the
generic `gt=0` bound error only — the distinct domain failure
`voltageBelowMinimum` is absent, so "fails with a distinct validation
failure" does not hold for every voltage below 208. -/
theorem voltage_floor_counterexample :
    zeroVoltInput.voltage < 208 ∧
    validateEquipment zeroVoltInput = .error [FieldError.voltageNotPositive] ∧
    FieldError.voltageBelowMinimum ∉ [FieldError.voltageNotPositive] := by
  refine ⟨by norm_num [zeroVoltInput], ?_, by decide⟩
  have hn : nameErrors zeroVoltInput.name = [] := by decide
  have hvErr : voltageErrors zeroVoltInput.voltage = [FieldError.voltageNotPositive] := by
    show voltageErrors 0 = _
    unfold voltageErrors
    rw [if_pos (by norm_num)]
  have hibf : ibfErrors zeroVoltInput.bolted_fault_current = [] := by
    show ibfErrors 40000 = _
    unfold ibfErrors
    rw [if_neg (not_not_intro (by norm_num)), if_neg (not_not_intro (by norm_num))]
  have hdist : distanceErrors zeroVoltInput.working_distance = [] := by
    show distanceErrors 24 = _
    unfold distanceErrors
    rw [if_neg (not_not_intro (by norm_num)), if_neg (not_not_intro (by norm_num))]
  have hgap : gapErrors zeroVoltInput.electrode_gap = [] := by
    show gapErrors 32 = _
    unfold gapErrors
    rw [if_neg (not_not_intro (by norm_num)), if_neg (not_not_intro (by norm_num))]
  have htime : timeErrors zeroVoltInput.fault_clearing_time = [] := by
    show timeErrors 0.05 = _
    unfold timeErrors
    rw [if_neg (not_not_intro (by norm_num)), if_neg (not_not_intro (by norm_num))]
  simp only [validateEquipment]
  rw [hn, hvErr, hibf, hdist, hgap, htime]
  rfl

lemma arcing_congr (e1 e2 : EquipmentInput) (hv : e1.voltage = e2.voltage)
    (hb : e1.bolted_fault_current = e2.bolted_fault_current)
    (hg : e1.electrode_gap = e2.electrode_gap)
    (he : e1.enclosure_type = e2.enclosure_type) :
    calculate_arcing_current e1 = calculate_arcing_current e2 := by
  unfold calculate_arcing_current lg_ia
  rw [hv, hb, hg, he]

/-- C9 amended: holding all other inputs fixed, a strictly larger
`fault_clearing_time` strictly increases the unrounded incident energy and
the unrounded arc flash boundary.  (The result record's fields are these
values after display rounding, which can collapse the strict inequality —
see the counterexample.) -/
theorem clearing_time_monotone (e1 e2 : EquipmentInput)
    (h1 : Valid e1) (h2 : Valid e2)
    (hname : e1.name = e2.name) (hv : e1.voltage = e2.voltage)
    (hb : e1.bolted_fault_current = e2.bolted_fault_current)
    (hw : e1.working_distance = e2.working_distance)
    (he : e1.enclosure_type = e2.enclosure_type)
    (hg : e1.electrode_gap = e2.electrode_gap)
    (hgr : e1.grounding = e2.grounding)
    (ht : e1.fault_clearing_time < e2.fault_clearing_time) :
    calculate_incident_energy e1 (calculate_arcing_current e1)
      < calculate_incident_energy e2 (calculate_arcing_current e2) ∧
    calculate_arc_flash_boundary e1 (calculate_arcing_current e1)
      < calculate_arc_flash_boundary e2 (calculate_arcing_current e2) := by
  obtain ⟨-, -, -, -, -, -, -, hw0, -, -, -, ht0, -⟩ := h1
  have hA := arcing_congr e1 e2 hv hb hg he
  have hA1 := arcing_pos e1
  have hcf := cf_cast_pos e1.enclosure_type
  have ht' : (e1.fault_clearing_time : ℝ) < (e2.fault_clearing_time : ℝ) := by
    exact_mod_cast ht
  have ht0' : (0 : ℝ) < (e1.fault_clearing_time : ℝ) := by exact_mod_cast ht0
  have hnum : (0 : ℝ) < 4.184 * ((ENCLOSURE_FACTORS e1.enclosure_type : ℚ) : ℝ)
      * calculate_arcing_current e1 :=
    mul_pos (mul_pos (by norm_num) hcf) hA1
  constructor
  · have hw0' : (0 : ℝ) < (e1.working_distance : ℝ) := by exact_mod_cast hw0
    have hden : (0 : ℝ) < 4 * Real.pi * (e1.working_distance : ℝ) ^ (2 : ℕ) := by
      have := Real.pi_pos
      positivity
    rw [incident_energy_eq, incident_energy_eq, ← hA, ← hw, ← he,
      div_lt_div_iff_of_pos_right hden]
    exact mul_lt_mul_of_pos_left ht' hnum
  · have hden : (0 : ℝ) < 4 * Real.pi * 1.2 := by
      have := Real.pi_pos
      positivity
    rw [boundary_eq, boundary_eq, ← hA, ← he]
    apply Real.sqrt_lt_sqrt
    · exact le_of_lt (div_pos (mul_pos hnum ht0') hden)
    · rw [div_lt_div_iff_of_pos_right hden]
      exact mul_lt_mul_of_pos_left ht' hnum

/-- Witness for the amended C9: the worked example at 0.05 s versus 0.5 s. -/
theorem clearing_time_monotone_witness :
    calculate_incident_energy sampleInput (calculate_arcing_current sampleInput)
      < calculate_incident_energy sampleInputSlow (calculate_arcing_current sampleInputSlow) ∧
    calculate_arc_flash_boundary sampleInput (calculate_arcing_current sampleInput)
      < calculate_arc_flash_boundary sampleInputSlow (calculate_arcing_current sampleInputSlow) :=
  clearing_time_monotone sampleInput sampleInputSlow
    valid_sampleInput valid_sampleInputSlow rfl rfl rfl rfl rfl rfl rfl
    (by norm_num [sampleInput, sampleInputSlow])

lemma lg_ia_tiny (e : EquipmentInput) (hv : e.voltage = 208)
    (hb : e.bolted_fault_current = 1) (hg : e.electrode_gap = 1)
    (het : e.enclosure_type = .VCB) : lg_ia e = -0.1323812 := by
  unfold lg_ia
  rw [hv, hb, hg, het, if_pos (by decide)]
  norm_num [Real.logb_one]

lemma arcing_lt_one_of_lg (e : EquipmentInput) (hlg : lg_ia e = -0.1323812) :
    calculate_arcing_current e < 1 := by
  unfold calculate_arcing_current
  rw [hlg]
  calc (10 : ℝ) ^ (-0.1323812 : ℝ) < (10 : ℝ) ^ (0 : ℝ) := by
        rw [Real.rpow_lt_rpow_left_iff (by norm_num : (1 : ℝ) < 10)]
        norm_num
    _ = 1 := Real.rpow_zero 10

lemma calculate_zero_rounded (e : EquipmentInput) (het : e.enclosure_type = .VCB)
    (ht0 : 0 < e.fault_clearing_time) (ht : e.fault_clearing_time ≤ 0.002)
    (hd : e.working_distance = 120)
    (hIa : calculate_arcing_current e < 1) :
    (calculate e).incident_energy = 0 ∧ (calculate e).arc_flash_boundary = 0 := by
  have hA0 := arcing_pos e
  have ht0' : (0 : ℝ) < (e.fault_clearing_time : ℝ) := by exact_mod_cast ht0
  have ht2 : (e.fault_clearing_time : ℝ) ≤ 0.002 := by
    rw [show (0.002 : ℝ) = ((0.002 : ℚ) : ℝ) by norm_num]
    exact_mod_cast ht
  have hpi := Real.pi_gt_three
  have hcf : ((ENCLOSURE_FACTORS e.enclosure_type : ℚ) : ℝ) = 1 := by
    rw [het]
    norm_num [ENCLOSURE_FACTORS]
  have hAt : calculate_arcing_current e * (e.fault_clearing_time : ℝ) ≤ 1 * 0.002 :=
    mul_le_mul (le_of_lt hIa) ht2 (le_of_lt ht0') zero_le_one
  constructor
  · show pyRound (calculate_incident_energy e (calculate_arcing_current e)) 2 = 0
    apply pyRound_eq_zero
    · rw [incident_energy_eq, hcf, hd]
      apply div_nonneg
      · exact mul_nonneg (mul_nonneg (by norm_num) (le_of_lt hA0)) (le_of_lt ht0')
      · have := Real.pi_pos
        positivity
    · rw [incident_energy_eq, hcf, hd]
      push_cast
      rw [div_mul_eq_mul_div, div_lt_iff (by have := Real.pi_pos; positivity)]
      nlinarith [hAt, hpi]
  · show pyRound (calculate_arc_flash_boundary e (calculate_arcing_current e)) 1 = 0
    apply pyRound_eq_zero
    · rw [boundary_eq]
      exact Real.sqrt_nonneg _
    · have hlt : calculate_arc_flash_boundary e (calculate_arcing_current e)
          < 1 / 20 := by
        rw [boundary_eq, hcf, Real.sqrt_lt' (by norm_num : (0 : ℝ) < 1 / 20),
          div_lt_iff (by have := Real.pi_pos; positivity)]
        nlinarith [hAt, hpi]
      have hnn : (0 : ℝ) ≤ calculate_arc_flash_boundary e (calculate_arcing_current e) := by
        rw [boundary_eq]
        exact Real.sqrt_nonneg _
      norm_num
      nlinarith [hlt, hnn]

/-- C9 counterexample: with a 1 A fault current, a 120 in working distance and
clearing times 0.001 s versus 0.002 s, both incident energies round to 0.00
and both boundaries round to 0.0, so the result record's fields are equal —
not strictly larger. -/
theorem clearing_time_counterexample :
    Valid tinyInputA ∧ Valid tinyInputB ∧
    tinyInputA.name = tinyInputB.name ∧
    tinyInputA.voltage = tinyInputB.voltage ∧
    tinyInputA.bolted_fault_current = tinyInputB.bolted_fault_current ∧
    tinyInputA.working_distance = tinyInputB.working_distance ∧
    tinyInputA.enclosure_type = tinyInputB.enclosure_type ∧
    tinyInputA.electrode_gap = tinyInputB.electrode_gap ∧
    tinyInputA.grounding = tinyInputB.grounding ∧
    tinyInputA.fault_clearing_time < tinyInputB.fault_clearing_time ∧
    (calculate tinyInputA).incident_energy = (calculate tinyInputB).incident_energy ∧
    (calculate tinyInputA).arc_flash_boundary = (calculate tinyInputB).arc_flash_boundary ∧
    ¬ (calculate tinyInputA).incident_energy < (calculate tinyInputB).incident_energy := by
  have hlgA : lg_ia tinyInputA = -0.1323812 := lg_ia_tiny _ rfl rfl rfl rfl
  have hlgB : lg_ia tinyInputB = -0.1323812 := lg_ia_tiny _ rfl rfl rfl rfl
  obtain ⟨hEA, hBA⟩ := calculate_zero_rounded tinyInputA rfl
    (by norm_num [tinyInputA]) (by norm_num [tinyInputA]) rfl
    (arcing_lt_one_of_lg _ hlgA)
  obtain ⟨hEB, hBB⟩ := calculate_zero_rounded tinyInputB rfl
    (by norm_num [tinyInputB, tinyInputA]) (by norm_num [tinyInputB, tinyInputA]) rfl
    (arcing_lt_one_of_lg _ hlgB)
  refine ⟨valid_tinyInputA, valid_tinyInputB, rfl, rfl, rfl, rfl, rfl, rfl, rfl,
    by norm_num [tinyInputA, tinyInputB], ?_, ?_, ?_⟩
  · rw [hEA, hEB]
  · rw [hBA, hBB]
  · rw [hEA, hEB]
    norm_num

lemma logb_ten_self : Real.logb 10 (10 : ℝ) = 1 :=
  Real.logb_self_eq_one (by norm_num)

lemma lg_ia_trace : lg_ia traceInput = 0.1425232 := by
  unfold lg_ia traceInput
  rw [if_pos (by decide)]
  norm_num [logb_ten_self]

lemma ten_pow_seventh_lt : (10 : ℝ) ^ ((1 : ℝ) / 7) < 1.5 := by
  have hpow : ((10 : ℝ) ^ ((1 : ℝ) / 7)) ^ (7 : ℕ) = 10 := by
    rw [← Real.rpow_natCast ((10 : ℝ) ^ ((1 : ℝ) / 7)) 7,
      ← Real.rpow_mul (by norm_num : (0 : ℝ) ≤ 10)]
    norm_num
  refine lt_of_pow_lt_pow_left 7 (by norm_num) ?_
  rw [hpow]
  norm_num

lemma arcing_trace_bounds :
    1 < calculate_arcing_current traceInput ∧
    calculate_arcing_current traceInput < 1.5 := by
  have hA : calculate_arcing_current traceInput = (10 : ℝ) ^ (0.1425232 : ℝ) := by
    unfold calculate_arcing_current
    rw [lg_ia_trace]
  constructor
  · rw [hA]
    calc (1 : ℝ) = (10 : ℝ) ^ (0 : ℝ) := (Real.rpow_zero 10).symm
      _ < (10 : ℝ) ^ (0.1425232 : ℝ) := by
          rw [Real.rpow_lt_rpow_left_iff (by norm_num : (1 : ℝ) < 10)]
          norm_num
  · rw [hA]
    calc (10 : ℝ) ^ (0.1425232 : ℝ) < (10 : ℝ) ^ ((1 : ℝ) / 7) := by
          rw [Real.rpow_lt_rpow_left_iff (by norm_num : (1 : ℝ) < 10)]
          norm_num
      _ < 1.5 := ten_pow_seventh_lt

lemma calc_trace_arcing : (calculate traceInput).arcing_current = 1 := by
  obtain ⟨h1, h2⟩ := arcing_trace_bounds
  show pyRound (calculate_arcing_current traceInput) 0 = 1
  have h := pyRound_eq_of_bounds (x := calculate_arcing_current traceInput)
    (n := 0) (m := 1) (by norm_num; linarith) (by norm_num; linarith)
  simpa using h

/-- C2: at `traceInput` the detailed trace's step-2 `lg_Ia` is the base-10 log
of the already-rounded arcing current (which is exactly 1, so the trace shows
0), while the engine's `lg(Ia)` for the same input is 0.1425232 — 0.1425
after the trace's own 4-decimal rounding.  The surfaced value diverges from
the primary computation, although the `result` sub-record itself matches
`calculate` exactly. -/
theorem detailed_trace_lg_ia_divergence :
    (calculate_arc_flash_detailed traceInput).result = calculate traceInput ∧
    (calculate_arc_flash_detailed
        traceInput).calculation_steps.step_2_arcing_current.result.lg_Ia = 0 ∧
    lg_ia traceInput = 0.1425232 ∧
    pyRound (lg_ia traceInput) 4 = 0.1425 ∧
    (calculate_arc_flash_detailed
        traceInput).calculation_steps.step_2_arcing_current.result.lg_Ia
      ≠ pyRound (lg_ia traceInput) 4 := by
  have hstep : (calculate_arc_flash_detailed
      traceInput).calculation_steps.step_2_arcing_current.result.lg_Ia = 0 := by
    show pyRound (Real.logb 10 ((calculate traceInput).arcing_current)) 4 = 0
    rw [calc_trace_arcing, Real.logb_one]
    unfold pyRound
    norm_num
  have hround : pyRound (lg_ia traceInput) 4 = 0.1425 := by
    rw [lg_ia_trace]
    have h := pyRound_eq_of_bounds (x := (0.1425232 : ℝ)) (n := 4) (m := 1425)
      (by norm_num) (by norm_num)
    rw [h]
    norm_num
  refine ⟨rfl, hstep, lg_ia_trace, hround, ?_⟩
  rw [hstep, hround]
  norm_num

end ArcFlash
